import Mathlib

/-!
Shallow embedding of the staking reward-calculation engine and the
staking-constraints registry. JavaScript numbers are modelled as real
numbers (`ℝ`) in the interest/APY calculators, where `Math.pow` becomes
real-valued exponentiation (`Real.rpow`), and as rationals (`ℚ`) in the
constraints registry, where every literal is exactly representable and
all predicates are decidable.
-/

/-- Input parameters of a staking calculation (`StakingParameters`):
`compoundingFrequency` is an optional field. -/
structure StakingParameters where
  principal : ℝ
  apr : ℝ
  days : ℝ
  compoundingFrequency : Option ℝ

/-- Result record of a staking calculation (`StakingResult`): `apy` is an
optional field, only set by the compound-interest calculator. -/
structure StakingResult where
  principal : ℝ
  interest : ℝ
  total : ℝ
  apr : ℝ
  apy : Option ℝ

/-- `aprToApy(apr, compoundingFrequency = 365)`:
`periodicRate = apr / 100 / compoundingFrequency`;
`apy = (1 + periodicRate) ^ compoundingFrequency - 1`; returned as percent. -/
noncomputable def aprToApy (apr : ℝ) (compoundingFrequency : ℝ := 365) : ℝ :=
  let periodicRate := apr / 100 / compoundingFrequency
  let apy := (1 + periodicRate) ^ compoundingFrequency - 1
  apy * 100

/-- `calculateSimpleInterest(params)`: `dailyRate = apr / 100 / 365`;
`interest = principal * dailyRate * days`; `total = principal + interest`;
no `apy` field in the result. -/
noncomputable def calculateSimpleInterest (params : StakingParameters) : StakingResult :=
  let principal := params.principal
  let apr := params.apr
  let days := params.days
  let dailyRate := apr / 100 / 365
  let interest := principal * dailyRate * days
  let total := principal + interest
  { principal := principal, interest := interest, total := total, apr := apr, apy := none }

/-- `calculateCompoundInterest(params)`: destructures with
`compoundingFrequency = 1` as default; `periodicRate = apr / 100 / 365 *
compoundingFrequency`; `periods = days / compoundingFrequency`;
`total = principal * (1 + periodicRate) ^ periods`;
`interest = total - principal`;
`apy = aprToApy(apr, 365 / compoundingFrequency)`. -/
noncomputable def calculateCompoundInterest (params : StakingParameters) : StakingResult :=
  let principal := params.principal
  let apr := params.apr
  let days := params.days
  let compoundingFrequency := params.compoundingFrequency.getD 1
  let periodicRate := apr / 100 / 365 * compoundingFrequency
  let periods := days / compoundingFrequency
  let total := principal * (1 + periodicRate) ^ periods
  let interest := total - principal
  let apy := aprToApy apr (365 / compoundingFrequency)
  { principal := principal, interest := interest, total := total, apr := apr, apy := some apy }

/-- `calculateStakingRewards(params, useCompound = false)`: dispatches to the
compound or the simple calculator. -/
noncomputable def calculateStakingRewards (params : StakingParameters)
    (useCompound : Bool := false) : StakingResult :=
  if useCompound then
    calculateCompoundInterest params
  else
    calculateSimpleInterest params

/-- `getCompoundingFrequency(frequency)`: the `switch` over the five named
cadences, with a `default` branch returning `1`. -/
def getCompoundingFrequency (frequency : String) : ℚ :=
  if frequency = "daily" then 1
  else if frequency = "weekly" then 7
  else if frequency = "monthly" then 30
  else if frequency = "quarterly" then 90
  else if frequency = "annually" then 365
  else 1

/-- A `StakingPeriod` record: `maxDays = none` models the `null` that means
"no maximum". -/
structure StakingPeriod where
  name : String
  minDays : ℚ
  maxDays : Option ℚ
  apr : Option ℚ := none
deriving DecidableEq

/-- A `CoinStakingConstraints` registry entry. -/
structure CoinStakingConstraints where
  symbol : String
  name : String
  minStakeAmount : ℚ
  unbondingPeriod : ℚ
  stakingPeriods : List StakingPeriod
  notes : Option String := none
  stakingMethod : Option String := none
  stakingRisks : Option (List String) := none
  rewardType : Option String := none
deriving DecidableEq

/-- The static `stakingConstraints` table (descriptive metadata strings kept
as in the source, minus punctuation that the embedding language reserves). -/
def stakingConstraints : List CoinStakingConstraints := [
  { symbol := "ETH",
    name := "Ethereum",
    minStakeAmount := 0.01,
    unbondingPeriod := 0,
    stakingPeriods := [
      { name := "Flexible", minDays := 1, maxDays := none }
    ],
    notes := some "Liquid staking olarak isletilebilir, bu yuzden cozulme suresi yoktur.",
    stakingMethod := some "Liquid Staking",
    stakingRisks := some ["Smart contract riski", "Validator riski"],
    rewardType := some "ETH" },
  { symbol := "SOL",
    name := "Solana",
    minStakeAmount := 0.1,
    unbondingPeriod := 2,
    stakingPeriods := [
      { name := "Flexible", minDays := 1, maxDays := none }
    ],
    notes := some "Solanada unstaking sureci 2-3 gun surer.",
    stakingMethod := some "Delegation",
    stakingRisks := some ["Validator riski", "Network durma riski"],
    rewardType := some "SOL" },
  { symbol := "ADA",
    name := "Cardano",
    minStakeAmount := 5,
    unbondingPeriod := 0,
    stakingPeriods := [
      { name := "Flexible", minDays := 1, maxDays := none }
    ],
    notes := some "Cardanoda staking yaparken fonlariniz kilitlenmez.",
    stakingMethod := some "Delegation",
    stakingRisks := some ["Dusuk riskli"],
    rewardType := some "ADA" },
  { symbol := "DOT",
    name := "Polkadot",
    minStakeAmount := 1,
    unbondingPeriod := 28,
    stakingPeriods := [
      { name := "Bonded", minDays := 28, maxDays := none }
    ],
    notes := some "Unbonding suresi 28 gundur ve bu sure icinde odul alinmaz.",
    stakingMethod := some "Bonding",
    stakingRisks := some ["Likidite kilidi", "Slashing riski"],
    rewardType := some "DOT" },
  { symbol := "AVAX",
    name := "Avalanche",
    minStakeAmount := 1,
    unbondingPeriod := 14,
    stakingPeriods := [
      { name := "Flexible", minDays := 14, maxDays := some 365 }
    ],
    notes := some "Avalanche stake suresi 14 ile 365 gun arasinda degisebilir.",
    stakingMethod := some "Delegation",
    stakingRisks := some ["Validator riski", "Likidite kilidi"],
    rewardType := some "AVAX" },
  { symbol := "ATOM",
    name := "Cosmos",
    minStakeAmount := 0.1,
    unbondingPeriod := 21,
    stakingPeriods := [
      { name := "Bonded", minDays := 21, maxDays := none }
    ],
    notes := some "Unbonding suresi 21 gundur ve bu sure icinde odul alinmaz.",
    stakingMethod := some "Delegation",
    stakingRisks := some ["Likidite kilidi", "Slashing riski"],
    rewardType := some "ATOM" },
  { symbol := "ALGO",
    name := "Algorand",
    minStakeAmount := 1,
    unbondingPeriod := 0,
    stakingPeriods := [
      { name := "Flexible", minDays := 1, maxDays := none }
    ],
    notes := some "Algorand stake islemi aninda ve kilitleme olmadan gerceklesir.",
    stakingMethod := some "Participation",
    stakingRisks := some ["Dusuk riskli"],
    rewardType := some "ALGO" }
]

/-- The JavaScript `String.prototype.toUpperCase` call used for symbol
normalization, modelled character-wise (it agrees with the runtime method on
the ASCII ticker symbols this module handles). -/
def toUpperCase (s : String) : String :=
  ⟨s.data.map Char.toUpper⟩

/-- `getStakingConstraints(symbol)`: uppercase the symbol, then find the
entry with that exact symbol; `null` (here `none`) when absent. -/
def getStakingConstraints (symbol : String) : Option CoinStakingConstraints :=
  let normalizedSymbol := toUpperCase symbol
  stakingConstraints.find? (fun coin => coin.symbol == normalizedSymbol)

/-- `getAllStakingConstraints()`: a copy of the registry list. -/
def getAllStakingConstraints : List CoinStakingConstraints :=
  stakingConstraints

/-- `isValidStakeAmount(symbol, amount)`: `true` when no constraints exist,
else `amount >= minStakeAmount`. -/
def isValidStakeAmount (symbol : String) (amount : ℚ) : Bool :=
  match getStakingConstraints symbol with
  | none => true
  | some constraints => decide (amount ≥ constraints.minStakeAmount)

/-- `isValidStakeDuration(symbol, days)`: `true` when no constraints exist,
else `true` iff some period has `days >= minDays` and
(`maxDays === null` or `days <= maxDays`). -/
def isValidStakeDuration (symbol : String) (days : ℚ) : Bool :=
  match getStakingConstraints symbol with
  | none => true
  | some constraints =>
    constraints.stakingPeriods.any (fun period =>
      decide (days ≥ period.minDays) &&
        (match period.maxDays with
         | none => true
         | some maxDays => decide (days ≤ maxDays)))

/-- A staking period accepts a duration iff the duration is at least
`minDays` and, when `maxDays` is set, at most `maxDays`. -/
theorem periodMatches_iff (d : ℚ) (period : StakingPeriod) :
    (decide (d ≥ period.minDays) &&
      (match period.maxDays with
       | none => true
       | some maxDays => decide (d ≤ maxDays))) = true ↔
    (period.minDays ≤ d ∧ ∀ m : ℚ, period.maxDays = some m → d ≤ m) := by
  cases hm : period.maxDays <;> simp [hm]

/-- C4: `isValidStakeDuration` is `true` when no registry entry exists for
the (uppercased) symbol, and otherwise is `true` iff the duration falls in
at least one `stakingPeriods` window, with inclusive bounds and `maxDays =
none` meaning "no maximum"; concretely `isValidStakeDuration "DOT" 27 =
false`, `isValidStakeDuration "DOT" 28 = true`, and
`isValidStakeDuration "DOT" 10000 = true`. -/
theorem C4_isValidStakeDuration_spec :
    (∀ (s : String) (d : ℚ), getStakingConstraints s = none →
        isValidStakeDuration s d = true) ∧
    (∀ (s : String) (d : ℚ) (c : CoinStakingConstraints),
        getStakingConstraints s = some c →
        (isValidStakeDuration s d = true ↔
          ∃ period ∈ c.stakingPeriods,
            period.minDays ≤ d ∧ ∀ m : ℚ, period.maxDays = some m → d ≤ m)) ∧
    isValidStakeDuration "DOT" 27 = false ∧
    isValidStakeDuration "DOT" 28 = true ∧
    isValidStakeDuration "DOT" 10000 = true := by
  refine ⟨?_, ?_, by decide, by decide, by decide⟩
  · intro s d h
    simp [isValidStakeDuration, h]
  · intro s d c h
    simp only [isValidStakeDuration, h, List.any_eq_true, periodMatches_iff]

/-- C4 witness: the permissive branch at the unknown symbol `"BTC"`. -/
theorem C4_isValidStakeDuration_spec_witness :
    getStakingConstraints "BTC" = none ∧ isValidStakeDuration "BTC" 5 = true :=
  ⟨by decide, C4_isValidStakeDuration_spec.1 "BTC" 5 (by decide)⟩

/-- C5: the lookup is a case-insensitive exact search (the symbol is
uppercased first) returning `none`, not an error, for unknown symbols;
`isValidStakeAmount` is `true` whenever no constraints exist (including
`isValidStakeAmount "xyz-unknown" (-5) = true`), and otherwise is `true`
iff the amount is at least `minStakeAmount`, so
`isValidStakeAmount "DOT" 0.5 = false` and
`isValidStakeAmount "DOT" 1 = true`. -/
theorem C5_isValidStakeAmount_spec :
    (∀ s : String, getStakingConstraints s
        = stakingConstraints.find? (fun coin => coin.symbol == toUpperCase s)) ∧
    getStakingConstraints "xyz-unknown" = none ∧
    isValidStakeAmount "xyz-unknown" (-5) = true ∧
    (∀ (s : String) (a : ℚ), getStakingConstraints s = none →
        isValidStakeAmount s a = true) ∧
    (∀ (s : String) (a : ℚ) (c : CoinStakingConstraints),
        getStakingConstraints s = some c →
        (isValidStakeAmount s a = true ↔ c.minStakeAmount ≤ a)) ∧
    isValidStakeAmount "DOT" 0.5 = false ∧
    isValidStakeAmount "DOT" 1 = true := by
  refine ⟨fun s => rfl, by decide, by decide, ?_, ?_, ?_, by decide⟩
  · intro s a h
    simp [isValidStakeAmount, h]
  · intro s a c h
    simp [isValidStakeAmount, h, ge_iff_le]
  · rw [show (0.5 : ℚ) = mkRat 1 2 from by norm_num [Rat.mkRat_eq_div]]
    decide

/-- C5 witness: the permissive branch at the unknown symbol `"BTC"`. -/
theorem C5_isValidStakeAmount_spec_witness :
    getStakingConstraints "BTC" = none ∧ isValidStakeAmount "BTC" 7 = true :=
  ⟨by decide, C5_isValidStakeAmount_spec.2.2.2.1 "BTC" 7 (by decide)⟩

/-- C8: `getCompoundingFrequency` maps the five named cadences to
1, 7, 30, 90 and 365 days respectively, and returns `1` for any other
input string (a total function, no failure mode). -/
theorem C8_getCompoundingFrequency_spec :
    getCompoundingFrequency "daily" = 1 ∧
    getCompoundingFrequency "weekly" = 7 ∧
    getCompoundingFrequency "monthly" = 30 ∧
    getCompoundingFrequency "quarterly" = 90 ∧
    getCompoundingFrequency "annually" = 365 ∧
    ∀ s : String, s ∉ ["daily", "weekly", "monthly", "quarterly", "annually"] →
      getCompoundingFrequency s = 1 := by
  refine ⟨rfl, rfl, rfl, rfl, rfl, ?_⟩
  intro s hs
  simp only [List.mem_cons, List.not_mem_nil, or_false, not_or] at hs
  obtain ⟨h1, h2, h3, h4, h5⟩ := hs
  simp [getCompoundingFrequency, h1, h2, h3, h4, h5]

/-- C8 witness: the defensive default at the cadence `"hourly"`. -/
theorem C8_getCompoundingFrequency_spec_witness :
    "hourly" ∉ ["daily", "weekly", "monthly", "quarterly", "annually"] ∧
    getCompoundingFrequency "hourly" = 1 :=
  ⟨by decide, C8_getCompoundingFrequency_spec.2.2.2.2.2 "hourly" (by decide)⟩

/-- C9: every entry of the static registry has a non-empty `stakingPeriods`
list, every period has `minDays ≥ 0`, and any present `maxDays` is at least
that period's `minDays`. -/
theorem C9_registry_invariant :
    ∀ entry ∈ stakingConstraints,
      entry.stakingPeriods ≠ [] ∧
      ∀ period ∈ entry.stakingPeriods,
        0 ≤ period.minDays ∧
        ∀ m : ℚ, period.maxDays = some m → period.minDays ≤ m := by
  intro entry h
  simp only [stakingConstraints, List.mem_cons, List.not_mem_nil, or_false] at h
  rcases h with rfl | rfl | rfl | rfl | rfl | rfl | rfl <;>
    refine ⟨by simp, ?_⟩ <;>
      · intro period hp
        simp only [List.mem_singleton] at hp
        subst hp
        exact ⟨by norm_num, fun m hm => by cases hm <;> norm_num⟩

/-- C9 witness: the invariant instantiated at the `DOT` registry entry. -/
theorem C9_registry_invariant_witness :
    ({ symbol := "DOT",
       name := "Polkadot",
       minStakeAmount := 1,
       unbondingPeriod := 28,
       stakingPeriods := [
         { name := "Bonded", minDays := 28, maxDays := none }
       ],
       notes := some "Unbonding suresi 28 gundur ve bu sure icinde odul alinmaz.",
       stakingMethod := some "Bonding",
       stakingRisks := some ["Likidite kilidi", "Slashing riski"],
       rewardType := some "DOT" } : CoinStakingConstraints) ∈ stakingConstraints ∧
    ([] : List StakingPeriod) ≠
      [{ name := "Bonded", minDays := 28, maxDays := none, apr := none }] := by
  constructor
  · decide
  · have h := C9_registry_invariant
      { symbol := "DOT",
        name := "Polkadot",
        minStakeAmount := 1,
        unbondingPeriod := 28,
        stakingPeriods := [
          { name := "Bonded", minDays := 28, maxDays := none }
        ],
        notes := some "Unbonding suresi 28 gundur ve bu sure icinde odul alinmaz.",
        stakingMethod := some "Bonding",
        stakingRisks := some ["Likidite kilidi", "Slashing riski"],
        rewardType := some "DOT" }
      (by decide)
    exact fun hc => h.1 hc.symm

/-- C10: amount validity is upward-closed: raising a valid amount keeps it
valid, for every symbol (trivially for unknown symbols, via the threshold
test for known ones). -/
theorem C10_amount_upward_closed (s : String) (a b : ℚ) (hab : a ≤ b)
    (ha : isValidStakeAmount s a = true) : isValidStakeAmount s b = true := by
  unfold isValidStakeAmount at ha ⊢
  cases h : getStakingConstraints s with
  | none => rfl
  | some c =>
    rw [h] at ha
    simp only [decide_eq_true_eq, ge_iff_le] at ha ⊢
    exact le_trans ha hab

/-- C10 witness: upward closure at `DOT`, from amount 1 to amount 2. -/
theorem C10_amount_upward_closed_witness :
    (1 : ℚ) ≤ 2 ∧ isValidStakeAmount "DOT" 1 = true ∧
    isValidStakeAmount "DOT" 2 = true :=
  ⟨by norm_num, by decide, C10_amount_upward_closed "DOT" 1 2 (by norm_num) (by decide)⟩

/-- C1: `calculateSimpleInterest` returns
`interest = principal * (apr/100/365) * days`, `total = principal +
interest`, echoes `principal` and `apr`, sets no `apy`; at
principal 100, apr 10, days 365 this yields interest 10 and total 110. -/
theorem C1_simple_interest_spec :
    (∀ p : StakingParameters,
        (calculateSimpleInterest p).interest
            = p.principal * (p.apr / 100 / 365) * p.days ∧
        (calculateSimpleInterest p).total
            = p.principal + (calculateSimpleInterest p).interest ∧
        (calculateSimpleInterest p).principal = p.principal ∧
        (calculateSimpleInterest p).apr = p.apr ∧
        (calculateSimpleInterest p).apy = none) ∧
    (calculateSimpleInterest ⟨100, 10, 365, none⟩).interest = 10 ∧
    (calculateSimpleInterest ⟨100, 10, 365, none⟩).total = 110 := by
  refine ⟨fun p => ⟨rfl, rfl, rfl, rfl, rfl⟩, ?_, ?_⟩ <;>
    norm_num [calculateSimpleInterest]

/-- C2: `calculateCompoundInterest`, with `compoundingFrequency`
defaulting to 1, returns
`total = principal * (1 + apr/100/365 * cf) ^ (days / cf)` with a
real-valued (untruncated) exponent, and `interest = total - principal`;
at days 365 and cf 30 the exponent is 365/30 = 73/6 (and is not the
integer 12), and the periodic rate at apr 12 is 0.12/365*30. -/
theorem C2_compound_interest_spec :
    (∀ p : StakingParameters,
        (calculateCompoundInterest p).total
            = p.principal * (1 + p.apr / 100 / 365 * p.compoundingFrequency.getD 1)
                ^ (p.days / p.compoundingFrequency.getD 1) ∧
        (calculateCompoundInterest p).interest
            = (calculateCompoundInterest p).total - p.principal ∧
        (calculateCompoundInterest p).principal = p.principal ∧
        (calculateCompoundInterest p).apr = p.apr) ∧
    (∀ principal apr days : ℝ,
        calculateCompoundInterest ⟨principal, apr, days, none⟩
          = calculateCompoundInterest ⟨principal, apr, days, some 1⟩) ∧
    (365 : ℝ) / 30 = 73 / 6 ∧
    (365 : ℝ) / 30 ≠ 12 ∧
    (12 : ℝ) / 100 / 365 * 30 = 0.12 / 365 * 30 := by
  refine ⟨fun p => ⟨rfl, rfl, rfl, rfl⟩, fun principal apr days => rfl, ?_, ?_, ?_⟩ <;>
    norm_num

/-- C3: `aprToApy(apr, f) = ((1 + (apr/100)/f) ^ f - 1) * 100`, with `f`
defaulting to 365 when unspecified, and the `apy` field of
`calculateCompoundInterest` is `aprToApy(apr, 365 / cf)`. -/
theorem C3_aprToApy_spec :
    (∀ apr f : ℝ, 0 < f →
        aprToApy apr f = ((1 + (apr / 100) / f) ^ f - 1) * 100) ∧
    (∀ apr : ℝ, aprToApy apr = aprToApy apr 365) ∧
    (∀ p : StakingParameters,
        (calculateCompoundInterest p).apy
          = some (aprToApy p.apr (365 / p.compoundingFrequency.getD 1))) :=
  ⟨fun _ _ _ => rfl, fun _ => rfl, fun _ => rfl⟩

/-- C3 witness: the formula instantiated at apr 10, f 2. -/
theorem C3_aprToApy_spec_witness :
    (0 : ℝ) < 2 ∧
    aprToApy 10 2 = ((1 + ((10 : ℝ) / 100) / 2) ^ (2 : ℝ) - 1) * 100 :=
  ⟨by norm_num, C3_aprToApy_spec.1 10 2 (by norm_num)⟩

/-- C6: with principal > 0, apr ≥ 0, days ≥ 0 (and compounding frequency
≥ 1), both calculators return a non-negative interest, satisfy
`total = principal + interest`, and the interest can vanish only when
apr = 0 or days = 0. -/
theorem C6_interest_nonneg (p : StakingParameters)
    (hpr : 0 < p.principal) (ha : 0 ≤ p.apr) (hd : 0 ≤ p.days)
    (hcf : 1 ≤ p.compoundingFrequency.getD 1) :
    (0 ≤ (calculateSimpleInterest p).interest ∧
      (calculateSimpleInterest p).total
          = p.principal + (calculateSimpleInterest p).interest ∧
      ((calculateSimpleInterest p).interest = 0 → p.apr = 0 ∨ p.days = 0)) ∧
    (0 ≤ (calculateCompoundInterest p).interest ∧
      (calculateCompoundInterest p).total
          = p.principal + (calculateCompoundInterest p).interest ∧
      ((calculateCompoundInterest p).interest = 0 → p.apr = 0 ∨ p.days = 0)) := by
  have hcf0 : (0 : ℝ) < p.compoundingFrequency.getD 1 := lt_of_lt_of_le one_pos hcf
  constructor
  · refine ⟨?_, rfl, ?_⟩
    · show 0 ≤ p.principal * (p.apr / 100 / 365) * p.days
      exact mul_nonneg
        (mul_nonneg hpr.le (div_nonneg (div_nonneg ha (by norm_num)) (by norm_num))) hd
    · intro h0
      by_contra hc
      push_neg at hc
      obtain ⟨ha0, hd0⟩ := hc
      have hapr : 0 < p.apr := lt_of_le_of_ne ha (Ne.symm ha0)
      have hdays : 0 < p.days := lt_of_le_of_ne hd (Ne.symm hd0)
      have hpos : 0 < p.principal * (p.apr / 100 / 365) * p.days :=
        mul_pos (mul_pos hpr (div_pos (div_pos hapr (by norm_num)) (by norm_num))) hdays
      exact absurd h0 (ne_of_gt hpos)
  · have hb : (1 : ℝ)
        ≤ 1 + p.apr / 100 / 365 * p.compoundingFrequency.getD 1 := by
      have : 0 ≤ p.apr / 100 / 365 * p.compoundingFrequency.getD 1 :=
        mul_nonneg (div_nonneg (div_nonneg ha (by norm_num)) (by norm_num)) hcf0.le
      linarith
    have he : 0 ≤ p.days / p.compoundingFrequency.getD 1 := div_nonneg hd hcf0.le
    have hpow : (1 : ℝ)
        ≤ (1 + p.apr / 100 / 365 * p.compoundingFrequency.getD 1)
            ^ (p.days / p.compoundingFrequency.getD 1) :=
      Real.one_le_rpow hb he
    refine ⟨?_, ?_, ?_⟩
    · show 0 ≤ p.principal
          * (1 + p.apr / 100 / 365 * p.compoundingFrequency.getD 1)
            ^ (p.days / p.compoundingFrequency.getD 1) - p.principal
      nlinarith [mul_le_mul_of_nonneg_left hpow hpr.le]
    · show p.principal
          * (1 + p.apr / 100 / 365 * p.compoundingFrequency.getD 1)
            ^ (p.days / p.compoundingFrequency.getD 1)
        = p.principal
          + (p.principal
              * (1 + p.apr / 100 / 365 * p.compoundingFrequency.getD 1)
                ^ (p.days / p.compoundingFrequency.getD 1) - p.principal)
      ring
    · intro h0
      by_contra hc
      push_neg at hc
      obtain ⟨ha0, hd0⟩ := hc
      have hapr : 0 < p.apr := lt_of_le_of_ne ha (Ne.symm ha0)
      have hdays : 0 < p.days := lt_of_le_of_ne hd (Ne.symm hd0)
      have hb1 : (1 : ℝ)
          < 1 + p.apr / 100 / 365 * p.compoundingFrequency.getD 1 := by
        have : 0 < p.apr / 100 / 365 * p.compoundingFrequency.getD 1 :=
          mul_pos (div_pos (div_pos hapr (by norm_num)) (by norm_num)) hcf0
        linarith
      have he1 : 0 < p.days / p.compoundingFrequency.getD 1 := div_pos hdays hcf0
      have hpow1 : (1 : ℝ)
          < (1 + p.apr / 100 / 365 * p.compoundingFrequency.getD 1)
              ^ (p.days / p.compoundingFrequency.getD 1) :=
        (Real.one_lt_rpow_iff_of_pos (lt_trans one_pos hb1)).mpr (Or.inl ⟨hb1, he1⟩)
      have h0e : p.principal
          * (1 + p.apr / 100 / 365 * p.compoundingFrequency.getD 1)
            ^ (p.days / p.compoundingFrequency.getD 1) - p.principal = 0 := h0
      nlinarith [mul_lt_mul_of_pos_left hpow1 hpr]

/-- C6 witness: the bounds instantiated at principal 100, apr 10,
days 365, compounding every 30 days. -/
theorem C6_interest_nonneg_witness :
    (0 : ℝ) < 100 ∧ (0 : ℝ) ≤ 10 ∧ (0 : ℝ) ≤ 365 ∧
    (1 : ℝ) ≤ (Option.some (30 : ℝ)).getD 1 ∧
    (0 ≤ (calculateSimpleInterest ⟨100, 10, 365, some 30⟩).interest ∧
      (calculateSimpleInterest ⟨100, 10, 365, some 30⟩).total
          = 100 + (calculateSimpleInterest ⟨100, 10, 365, some 30⟩).interest ∧
      ((calculateSimpleInterest ⟨100, 10, 365, some 30⟩).interest = 0 →
        (10 : ℝ) = 0 ∨ (365 : ℝ) = 0)) ∧
    (0 ≤ (calculateCompoundInterest ⟨100, 10, 365, some 30⟩).interest ∧
      (calculateCompoundInterest ⟨100, 10, 365, some 30⟩).total
          = 100 + (calculateCompoundInterest ⟨100, 10, 365, some 30⟩).interest ∧
      ((calculateCompoundInterest ⟨100, 10, 365, some 30⟩).interest = 0 →
        (10 : ℝ) = 0 ∨ (365 : ℝ) = 0)) :=
  ⟨by norm_num, by norm_num, by norm_num, by simp,
    C6_interest_nonneg ⟨100, 10, 365, some 30⟩
      (by norm_num) (by norm_num) (by norm_num) (by simp)⟩

/-- Squaring expressed with a real-valued exponent agrees with the natural
power. -/
theorem rpow_two_eq_sq (x : ℝ) : x ^ (2 : ℝ) = x ^ (2 : ℕ) := by
  rw [show (2 : ℝ) = ((2 : ℕ) : ℝ) by norm_num, Real.rpow_natCast]

/-- C7 counterexample: `aprToApy` is not monotone in apr over all real
rates: at f = 2, the rate -600 maps to APY 300 while the larger rate -400
maps to APY 0. -/
theorem C7_not_globally_monotone :
    ¬ (∀ f : ℝ, 0 < f → ∀ a1 a2 : ℝ, a1 < a2 → aprToApy a1 f < aprToApy a2 f) := by
  intro h
  have h1 : aprToApy (-600) 2 = 300 := by
    simp only [aprToApy]
    rw [rpow_two_eq_sq]
    norm_num
  have h2 : aprToApy (-400) 2 = 0 := by
    simp only [aprToApy]
    rw [rpow_two_eq_sq]
    norm_num
  have hlt := h 2 (by norm_num) (-600) (-400) (by norm_num)
  rw [h1, h2] at hlt
  norm_num at hlt

/-- C7 (amended): `aprToApy 0 f = 0` for f > 0, and `aprToApy` is strictly
monotone in apr on non-negative rates: 0 ≤ a1 < a2 implies
`aprToApy a1 f < aprToApy a2 f`. -/
theorem C7_apy_zero_and_monotone (f a1 a2 : ℝ) (hf : 0 < f)
    (h1 : 0 ≤ a1) (h12 : a1 < a2) :
    aprToApy 0 f = 0 ∧ aprToApy a1 f < aprToApy a2 f := by
  constructor
  · simp [aprToApy, Real.one_rpow]
  · simp only [aprToApy]
    have hb1 : (0 : ℝ) ≤ 1 + a1 / 100 / f := by
      have : 0 ≤ a1 / 100 / f := div_nonneg (div_nonneg h1 (by norm_num)) hf.le
      linarith
    have hlt : 1 + a1 / 100 / f < 1 + a2 / 100 / f := by
      have h100 : a1 / 100 < a2 / 100 := (div_lt_div_iff_of_pos_right (by norm_num)).mpr h12
      have : a1 / 100 / f < a2 / 100 / f := (div_lt_div_iff_of_pos_right hf).mpr h100
      linarith
    have := Real.rpow_lt_rpow hb1 hlt hf
    linarith

/-- C7 witness: at f = 1, APY(0) = 0 and APY(0) < APY(10). -/
theorem C7_apy_zero_and_monotone_witness :
    (0 : ℝ) < 1 ∧ (0 : ℝ) ≤ 0 ∧ (0 : ℝ) < 10 ∧
    (aprToApy 0 1 = 0 ∧ aprToApy 0 1 < aprToApy 10 1) :=
  ⟨by norm_num, le_refl 0, by norm_num,
    C7_apy_zero_and_monotone 1 0 10 (by norm_num) (le_refl 0) (by norm_num)⟩
